import Mathlib

/-!
Verification of the lazy-DataFrame core of this repository against its
natural-language specification.

Shallow embedding: each Python function that the claims touch is translated
into an executable Lean definition.  Machine-level ibis/SQL expressions are
modelled by their value semantics over `Option Int` (`none` is SQL NULL);
fallible Python code (raising exceptions) is modelled with `Except` or by
returning the raised message alongside the post-call state.
-/

/-! ## Operation library (`bigframes/operations.py`) -/

/-- BigQuery's native floor-division over non-null values.  A zero
denominator is an engine error (modelled as `Except.error`), which is what
`floordiv_op` must avoid triggering. -/
def bq_floordiv (x y : Int) : Except String Int :=
  if y = 0 then Except.error "division by zero" else Except.ok (Int.fdiv x y)

/-- BigQuery's native `MOD` over non-null values: the remainder keeps the
sign of the dividend (truncated division, `Int.tmod`); a zero denominator is
an engine error. -/
def bq_mod (x y : Int) : Except String Int :=
  if y = 0 then Except.error "MOD by zero" else Except.ok (Int.tmod x y)

/-- Null-propagating multiplication (SQL semantics): used by the source as
the "dummy op" `_ZERO * x` that propagates nulls and yields 0 otherwise. -/
def opt_mul (a b : Option Int) : Option Int :=
  match a, b with
  | some x, some y => some (x * y)
  | _, _ => none

/-- Value semantics of `floordiv_op` from `bigframes/operations.py`: the
generated expression is `CASE WHEN y = 0 THEN 0 * x ELSE x // y END`.
SQL `CASE` evaluates lazily per row and a null condition does not match,
so a null `y` falls through to the `ELSE` branch whose division by null is
null. -/
def floordiv_op (x y : Option Int) : Except String (Option Int) :=
  match y with
  | none => Except.ok none
  | some yv =>
    if yv = 0 then Except.ok (opt_mul (some 0) x)
    else
      match x with
      | none => Except.ok none
      | some xv => (bq_floordiv xv yv).map some

/-- Value semantics of `mod_op` from `bigframes/operations.py`: the
generated expression is
`CASE WHEN y = 0 THEN 0 * x
      WHEN y < 0 AND bq_mod > 0 THEN y + bq_mod
      WHEN y > 0 AND bq_mod < 0 THEN y + bq_mod
      ELSE bq_mod END`
with `bq_mod = x % y` (BigQuery keeps the sign of `x`).  The Python-level
short-circuit for a literal-zero `y` returns the same `0 * x` value as the
first `WHEN` branch, so it is absorbed by it here.  Null conditions do not
match, so a null operand reaches a branch computing on null and yields
null. -/
def mod_op (x y : Option Int) : Except String (Option Int) :=
  match y with
  | none => Except.ok none
  | some yv =>
    if yv = 0 then Except.ok (opt_mul (some 0) x)
    else
      match x with
      | none => Except.ok none
      | some xv =>
        (bq_mod xv yv).map fun m =>
          if yv < 0 ∧ 0 < m then some (yv + m)
          else if 0 < yv ∧ m < 0 then some (yv + m)
          else some m

/-! ## Aggregations (`bigframes/aggregations.py`) -/

/-- BigQuery `LOGICAL_AND` as used by ibis `.all()`: aggregates the non-null
values of a boolean column; yields NULL when there is no non-null input. -/
def logical_and (col : List (Option Bool)) : Option Bool :=
  match col.filterMap id with
  | [] => none
  | vs => some (vs.all id)

/-- BigQuery `LOGICAL_OR` as used by ibis `.any()`. -/
def logical_or (col : List (Option Bool)) : Option Bool :=
  match col.filterMap id with
  | [] => none
  | vs => some (vs.any id)

/-- `all_op` from `bigframes/aggregations.py`:
`(column != 0).all().fillna(True)`.  `column != 0` maps null to null,
`.fillna` is `Option.getD`. -/
def all_op (column : List (Option Int)) : Bool :=
  (logical_and (column.map (Option.map fun v => decide (v ≠ 0)))).getD true

/-- `any_op` from `bigframes/aggregations.py`:
`(column != 0).any().fillna(False)`. -/
def any_op (column : List (Option Int)) : Bool :=
  (logical_or (column.map (Option.map fun v => decide (v ≠ 0)))).getD false

/-- The ibis column data types that appear at this layer. -/
inductive IbisDType where
  | int64
  | float64
  | boolean
  | string
  | date
deriving DecidableEq, Repr

/-- ibis `DataType.is_numeric()`: true exactly for the numeric types. -/
def IbisDType.is_numeric : IbisDType → Bool
  | .int64 => true
  | .float64 => true
  | _ => false

/-- Rendering of an ibis dtype, used in the error message of `numeric_op`. -/
def IbisDType.render : IbisDType → String
  | .int64 => "int64"
  | .float64 => "float64"
  | .boolean => "boolean"
  | .string => "string"
  | .date => "date"

/-- An ibis column as seen by the aggregation layer: a name and a dtype. -/
structure IbisColumn where
  name : String
  dtype : IbisDType
deriving DecidableEq, Repr

/-- The symbolic aggregate expressions produced by the aggregation layer. -/
inductive AggExpr where
  | sum (column : IbisColumn)
  | mean (column : IbisColumn)
deriving DecidableEq, Repr

/-- `numeric_op` from `bigframes/aggregations.py`: a decorator that guards
its operation behind `column.type().is_numeric()`, raising a `ValueError`
otherwise. -/
def numeric_op (operation : IbisColumn → AggExpr) (column : IbisColumn) :
    Except String AggExpr :=
  if column.dtype.is_numeric then Except.ok (operation column)
  else
    Except.error
      ("Numeric operation cannot be applied to type " ++ column.dtype.render)

/-- `sum_op` from `bigframes/aggregations.py` (wrapped by `numeric_op`). -/
def sum_op (column : IbisColumn) : Except String AggExpr :=
  numeric_op AggExpr.sum column

/-- `mean_op` from `bigframes/aggregations.py` (wrapped by `numeric_op`). -/
def mean_op (column : IbisColumn) : Except String AggExpr :=
  numeric_op AggExpr.mean column

/-! ## Column-id standardization (`bigframes/core/utils.py`) -/

def UNNAMED_COLUMN_ID : String := "bigframes_unnamed_column"

def UNNAMED_INDEX_ID : String := "bigframes_unnamed_index"

/-- `id.replace(" ", "_")` from `get_standardized_ids`: the pattern is the
single character `" "`, so the replacement is exactly a character map. -/
def replace_spaces (s : String) : String :=
  String.mk (s.data.map fun c => if c = ' ' then '_' else c)

/-- Modelled from the spec: `dedup_names` (the vendored pandas helper
`third_party/bigframes_vendored/pandas/io/common.py`) is not under `src/`.
Per §6, after sentinel substitution and space replacement "any remaining
duplicate names across the combined index+value name list must be
deduplicated deterministically (e.g., suffixing with an incrementing
counter)".  `seen` counts prior occurrences of each name; a repeated name
gets a `.k` suffix with the running count, a fresh name passes through
unchanged. -/
def dedup_names_aux : List String → List (String × Nat) → List String
  | [], _ => []
  | n :: rest, seen =>
    match (seen.find? fun p => p.1 = n).map Prod.snd with
    | none => n :: dedup_names_aux rest ((n, 1) :: seen)
    | some k => (n ++ "." ++ toString k) :: dedup_names_aux rest ((n, k + 1) :: seen)

/-- Modelled from the spec: entry point of the deduplication pass (see
`dedup_names_aux`). -/
def dedup_names (names : List String) : List String :=
  dedup_names_aux names []

/-- `get_standardized_ids` from `bigframes/core/utils.py`.  Labels are
modelled as `Option String` (`none` is Python `None`; `str()` of a string
label is the label itself).  Returns `(column_ids, index_ids)`. -/
def get_standardized_ids (col_labels : List (Option String))
    (idx_labels : List (Option String)) : List String × List String :=
  let col_ids := col_labels.map fun l => l.getD UNNAMED_COLUMN_ID
  let idx_ids := idx_labels.map fun l => l.getD UNNAMED_INDEX_ID
  let ids := (idx_ids ++ col_ids).map replace_spaces
  let ids := dedup_names ids
  (ids.drop idx_ids.length, ids.take idx_ids.length)

/-! ## Session (`bigframes/session.py`) -/

/-- The arguments with which `read_gbq` resolves a table against
`ibis_client.table`: `table(parts[2], database=parts[0] + "." + parts[1])`.
Producing this value models the remote table resolution taking place. -/
structure TableResolution where
  table_id : String
  database : String
deriving DecidableEq, Repr

/-- `table.replace(":", ".")` from `read_gbq`: the pattern is the single
character `":"`, so the replacement is exactly a character map. -/
def replace_colons (s : String) : String :=
  String.mk (s.data.map fun c => if c = ':' then '.' else c)

/-- Python `str.split(sep)` for a single-character separator, over the
character list: splitting keeps empty fragments, as Python does. -/
def split_on_char (sep : Char) : List Char → List (List Char)
  | [] => [[]]
  | c :: rest =>
    match split_on_char sep rest with
    | [] => [[]]
    | g :: gs => if c = sep then [] :: g :: gs else (c :: g) :: gs

/-- `table.split(".")` from `read_gbq`. -/
def split_dots (s : String) : List String :=
  (split_on_char '.' s.data).map String.mk

/-- `Session.read_gbq` from `bigframes/session.py` up to table resolution:
`parts = table.replace(":", ".").split(".")`; a part count other than three
raises `ValueError` before contacting the client, otherwise the table is
resolved from the three parts. -/
def read_gbq (table : String) : Except String TableResolution :=
  match split_dots (replace_colons table) with
  | [p, d, t] => Except.ok ⟨t, p ++ "." ++ d⟩
  | _ =>
    Except.error "read_gbq requires a full table ID, including project and dataset."

/-! ## Expression tree (`bigframes/core.py`) -/

/-- An ibis table expression: a table name together with its schema column
names. -/
structure IbisTable where
  table_name : String
  table_columns : List String
deriving DecidableEq, Repr

/-- An ibis value expression as seen by `BigFramesExpr`: what matters at
this layer is its name (`get_name()`) and its identity.  `column` is a
column picked straight from a table (`table[key]`); `node` stands for any
other derived expression object, with an id so that distinct objects with
equal names stay distinguishable. -/
inductive Value where
  | column (table : IbisTable) (name : String)
  | node (name : String) (id : Nat)
deriving DecidableEq, Repr

/-- ibis `Value.get_name()`. -/
def Value.get_name : Value → String
  | .column _ n => n
  | .node n _ => n

/-- The `_column_names` dictionary of `BigFramesExpr.__init__`:
`{column.get_name(): column for column in columns}`.  Python dict insertion
overwrites, so a lookup returns the last column carrying the key. -/
def column_names_lookup : List Value → String → Option Value
  | [], _ => none
  | c :: rest, key =>
    match column_names_lookup rest key with
    | some v => some v
    | none => if c.get_name = key then some c else none

/-- `BigFramesExpr` from `bigframes/core.py`: a session handle (modelled as
an id), an ibis base table, and the tuple of column value expressions. -/
structure BigFramesExpr where
  session : Nat
  table : IbisTable
  columns : List Value
deriving DecidableEq, Repr

/-- The `columns is None` branch of `BigFramesExpr.__init__`: bind every
base-table column, in table order. -/
def BigFramesExpr.ofTable (session : Nat) (table : IbisTable) : BigFramesExpr :=
  ⟨session, table, table.table_columns.map fun k => Value.column table k⟩

/-- `BigFramesExpr.get_column`: dictionary lookup in `_column_names`;
`none` models the `KeyError`. -/
def BigFramesExpr.get_column (e : BigFramesExpr) (key : String) : Option Value :=
  column_names_lookup e.columns key

/-- `BigFramesExpr.projection`: a new expression over the same session and
table with the given columns. -/
def BigFramesExpr.projection (e : BigFramesExpr) (columns : List Value) :
    BigFramesExpr :=
  ⟨e.session, e.table, columns⟩

/-! ## Row-identity index and Block (`bigframes/core/blocks.py`) -/

/-- Modelled from the spec: the `bigframes.core.indexes` module
(`ImplicitJoiner`, `Index`) is not under `src/`; only `blocks.py` uses it.
Per §3/§4.2 a Row-Identity Index is the referenced expression tree plus
either no designated index column (*implicit*) or a labeled column with a
display name; the `hasattr(self._index, "name")` check in
`Block._reset_index` shows that only the labeled variant carries a `name`
attribute. -/
inductive RowIndex where
  | implicitJoiner (expr : BigFramesExpr)
  | labeled (expr : BigFramesExpr) (index_column : String) (name : String)
deriving DecidableEq, Repr

/-- The underlying column-name tuple of a row-identity index. -/
def RowIndex.column_names_of : RowIndex → List String
  | .implicitJoiner _ => []
  | .labeled _ c _ => [c]

/-- The expression tree a row-identity index is derived against. -/
def RowIndex.expr_of : RowIndex → BigFramesExpr
  | .implicitJoiner e => e
  | .labeled e _ _ => e

/-- `name = self._index.name if hasattr(self._index, "name") else columns[0]`
in `Block._reset_index`: `ImplicitJoiner` has no `name` attribute, `Index`
does. -/
def RowIndex.inherited_name (idx : RowIndex) (fallback : String) : String :=
  match idx with
  | .implicitJoiner _ => fallback
  | .labeled _ _ n => n

/-- `Block` from `bigframes/core/blocks.py`: the mutable handle holding an
expression tree, the index-column tuple and the derived row-identity index.
The Python object is mutated in place; the embedding passes the state
explicitly. -/
structure Block where
  expr : BigFramesExpr
  index_columns : List String
  index : RowIndex
deriving DecidableEq, Repr

/-- `Block._reset_index`: rebuild `_index` from the current `_expr` and
`_index_columns`; more than one index column raises `NotImplementedError`
(before `_index` is assigned, so the state is returned unchanged alongside
the error). -/
def Block.reset_index (b : Block) : Except String Block :=
  match b.index_columns with
  | [] => Except.ok { b with index := RowIndex.implicitJoiner b.expr }
  | [c] =>
    Except.ok
      { b with index := RowIndex.labeled b.expr c (b.index.inherited_name c) }
  | _ => Except.error "MultiIndex not supported."

/-- The `index_columns` setter: assigns `_index_columns = tuple(value)` and
then calls `_reset_index()`.  The result is the post-call state paired with
the raised message, if any; note the tuple assignment happens before the
validation in `_reset_index`. -/
def Block.set_index_columns (b : Block) (cols : List String) :
    Block × Option String :=
  let b1 := { b with index_columns := cols }
  match b1.reset_index with
  | Except.ok b2 => (b2, none)
  | Except.error e => (b1, some e)

/-- The `expr` setter: assigns `_expr` and then calls `_reset_index()`. -/
def Block.set_expr (b : Block) (expr : BigFramesExpr) :
    Block × Option String :=
  let b1 := { b with expr := expr }
  match b1.reset_index with
  | Except.ok b2 => (b2, none)
  | Except.error e => (b1, some e)

/-- `Block.__init__`: stores the expression, an `ImplicitJoiner` over it and
the index-column tuple, then runs `_reset_index()`. -/
def Block.init (expr : BigFramesExpr) (index_columns : List String) :
    Except String Block :=
  Block.reset_index ⟨expr, index_columns, RowIndex.implicitJoiner expr⟩

/-- A concrete base table used by the counterexample fixtures. -/
def tableA : IbisTable := ⟨"proj.ds.t", ["a", "b", "c"]⟩

/-- A concrete expression tree over `tableA`. -/
def exprA : BigFramesExpr := BigFramesExpr.ofTable 0 tableA

/-- The Block produced by `Block(exprA)` (checked reachable in the
counterexample below). -/
def blockA : Block := ⟨exprA, [], RowIndex.implicitJoiner exprA⟩

/-! ## Reshape (`bigframes/core/reshape/__init__.py`) and window spec -/

/-- Modelled from the spec: `bigframes.core.ordering` is not under `src/`.
Per §3 the ordering entries of a Window Specification are pairs of a column
id and a direction. -/
structure OrderingColumnReference where
  column_id : String
  ascending : Bool
deriving DecidableEq, Repr

/-- `WindowSpec` from `bigframes/core/window_spec.py`, with its field
defaults. -/
structure WindowSpec where
  grouping_keys : List String := []
  ordering : List OrderingColumnReference := []
  preceding : Option Int := none
  following : Option Int := none
  min_periods : Int := 0
deriving DecidableEq, Repr

/-- Modelled from the spec: `CutOp` (`bigframes.operations.aggregations`)
is not under `src/`; per §4.5 it is the binning operation parameterised by
the bin count, combined with a window specification by `cut`. -/
structure CutOp where
  bins : Int
deriving DecidableEq, Repr

/-- The errors `cut` can raise. -/
inductive CutError where
  | valueError (msg : String)
  | notImplementedError (msg : String)
deriving DecidableEq, Repr

/-- The successful outcome of `cut`: the window operation applied to the
series (`x._apply_window_op(agg_ops.CutOp(bins), window_spec=core.WindowSpec())`).
The series is modelled as an id. -/
structure WindowOpApplication where
  series : Nat
  op : CutOp
  window : WindowSpec
deriving DecidableEq, Repr

/-- `cut` from `bigframes/core/reshape/__init__.py`: `bins <= 0` raises
`ValueError`; then `labels is not False` raises `NotImplementedError`;
only afterwards is the window operation constructed and applied. -/
def cut (x : Nat) (bins : Int) (labels : Option Bool) :
    Except CutError WindowOpApplication :=
  if bins ≤ 0 then Except.error (CutError.valueError "`bins` should be a positive integer.")
  else if labels ≠ some false then
    Except.error
      (CutError.notImplementedError
        "Only labels=False is supported in BigQuery DataFrames so far.")
  else Except.ok ⟨x, ⟨bins⟩, {}⟩

/-! ## Helper lemmas -/

theorem column_names_lookup_eq_none {cols : List Value} {key : String}
    (h : key ∉ cols.map Value.get_name) : column_names_lookup cols key = none := by
  induction cols with
  | nil => rfl
  | cons c rest ih =>
    simp only [List.map_cons, List.mem_cons, not_or] at h
    simp only [column_names_lookup, ih h.2]
    exact if_neg fun he => h.1 he.symm

theorem column_names_lookup_mem {cols : List Value}
    (hnd : (cols.map Value.get_name).Nodup) {v : Value} (hv : v ∈ cols) :
    column_names_lookup cols v.get_name = some v := by
  induction cols with
  | nil => cases hv
  | cons c rest ih =>
    simp only [List.map_cons, List.nodup_cons] at hnd
    rcases List.mem_cons.mp hv with rfl | hv'
    · simp [column_names_lookup,
        @column_names_lookup_eq_none rest v.get_name hnd.1]
    · simp [column_names_lookup, ih hnd.2 hv']

theorem tmod_natAbs_lt (x y : Int) (h : y ≠ 0) :
    (Int.tmod x y).natAbs < y.natAbs := by
  cases x with
  | ofNat m =>
    cases y with
    | ofNat n =>
      have hn : 0 < n := Nat.pos_of_ne_zero (by simpa using h)
      show (Int.ofNat (m % n)).natAbs < (Int.ofNat n).natAbs
      simpa using Nat.mod_lt m hn
    | negSucc n =>
      show (Int.ofNat (m % n.succ)).natAbs < (Int.negSucc n).natAbs
      simpa using Nat.mod_lt m (Nat.succ_pos n)
  | negSucc m =>
    cases y with
    | ofNat n =>
      have hn : 0 < n := Nat.pos_of_ne_zero (by simpa using h)
      show (-Int.ofNat (m.succ % n)).natAbs < (Int.ofNat n).natAbs
      simpa using Nat.mod_lt m.succ hn
    | negSucc n =>
      show (-Int.ofNat (m.succ % n.succ)).natAbs < (Int.negSucc n).natAbs
      simpa using Nat.mod_lt m.succ (Nat.succ_pos n)

theorem replace_spaces_eq_self {s : String} (h : ∀ c ∈ s.data, c ≠ ' ') :
    replace_spaces s = s := by
  cases s with
  | mk data =>
    unfold replace_spaces
    congr 1
    calc List.map (fun c => if c = ' ' then '_' else c) data
        = List.map id data := List.map_congr_left fun c hc => if_neg (h c hc)
      _ = data := List.map_id data

theorem dedup_names_aux_of_nodup :
    ∀ (names : List String) (seen : List (String × Nat)),
      names.Nodup → (∀ n ∈ names, (seen.find? fun p => p.1 = n) = none) →
      dedup_names_aux names seen = names := by
  intro names
  induction names with
  | nil => intro seen _ _; rfl
  | cons n rest ih =>
    intro seen hnd hseen
    have hfind : ((seen.find? fun p => p.1 = n).map Prod.snd) = none := by
      rw [hseen n (List.mem_cons_self n rest)]; rfl
    unfold dedup_names_aux
    rw [hfind]
    show n :: dedup_names_aux rest ((n, 1) :: seen) = n :: rest
    congr 1
    refine ih ((n, 1) :: seen) (List.Nodup.of_cons hnd) fun m hm => ?_
    have hnm : ¬(n = m) := by
      rintro rfl
      exact (List.nodup_cons.mp hnd).1 hm
    simp only [List.find?]
    rw [decide_eq_false hnm]
    exact hseen m (List.mem_cons_of_mem n hm)

theorem dedup_names_of_nodup {names : List String} (h : names.Nodup) :
    dedup_names names = names :=
  dedup_names_aux_of_nodup names [] h fun _ _ => rfl

theorem filterMap_id_of_all_none {col : List (Option Bool)}
    (h : ∀ v ∈ col, v = none) : col.filterMap id = [] := by
  induction col with
  | nil => rfl
  | cons c rest ih =>
    have hc : c = none := h c (List.mem_cons_self c rest)
    subst hc
    simpa using ih fun v hv => h v (List.mem_cons_of_mem none hv)

theorem logical_and_eq_ite (col : List (Option Bool)) :
    logical_and col =
      if col.filterMap id = [] then none
      else some ((col.filterMap id).all id) := by
  unfold logical_and
  cases h : col.filterMap id with
  | nil => simp
  | cons a l => simp

theorem logical_or_eq_ite (col : List (Option Bool)) :
    logical_or col =
      if col.filterMap id = [] then none
      else some ((col.filterMap id).any id) := by
  unfold logical_or
  cases h : col.filterMap id with
  | nil => simp
  | cons a l => simp

theorem all_map_id {α : Type} (f : α → Bool) (vs : List α) :
    (vs.map f).all id = vs.all f := by
  induction vs with
  | nil => rfl
  | cons v rest ih => simp [ih]

theorem any_map_id {α : Type} (f : α → Bool) (vs : List α) :
    (vs.map f).any id = vs.any f := by
  induction vs with
  | nil => rfl
  | cons v rest ih => simp [ih]

/-! ## Claim theorems -/

/-- C1 (counterexample): on the reachable Block `blockA` (built by
`Block(exprA)`, prior index-column tuple `[]`), assigning
`index_columns = ("a", "b")` does raise the `NotImplementedError` and leaves
the index unchanged, but the Block's index-column tuple is *not* the same as
before the call: it has already been overwritten with `("a", "b")`, because
the setter assigns the tuple before `_reset_index` validates it.  This
refutes the claim that the prior state is left unchanged. -/
theorem set_index_columns_multi_mutates_tuple :
    Block.init exprA [] = Except.ok blockA
    ∧ (blockA.set_index_columns ["a", "b"]).snd = some "MultiIndex not supported."
    ∧ (blockA.set_index_columns ["a", "b"]).fst.index = blockA.index
    ∧ (blockA.set_index_columns ["a", "b"]).fst.index_columns = ["a", "b"]
    ∧ blockA.index_columns = []
    ∧ (blockA.set_index_columns ["a", "b"]).fst.index_columns ≠ blockA.index_columns := by
  refine ⟨rfl, rfl, rfl, rfl, rfl, ?_⟩
  simp [Block.set_index_columns, Block.reset_index, blockA]

/-- C1 (amended): assigning two or more index columns raises the
`NotImplementedError` "MultiIndex not supported." and leaves the Block's
expression and index unchanged, but the Block's index-column tuple is set to
the new value before the error is raised (the prior state is only partially
preserved). -/
theorem set_index_columns_multi_raises (b : Block) (cols : List String)
    (h : 2 ≤ cols.length) :
    b.set_index_columns cols =
      ({ b with index_columns := cols }, some "MultiIndex not supported.") := by
  match cols, h with
  | c1 :: c2 :: rest, _ => rfl

/-- Witness for `set_index_columns_multi_raises` at `blockA` and
`("a", "b")`. -/
theorem set_index_columns_multi_raises_witness :
    2 ≤ (["a", "b"] : List String).length
    ∧ blockA.set_index_columns ["a", "b"] =
        ({ blockA with index_columns := ["a", "b"] },
          some "MultiIndex not supported.") :=
  ⟨by decide, set_index_columns_multi_raises blockA ["a", "b"] (by decide)⟩

/-- C8: for an index-column tuple of length at most one, the assignment
succeeds, the Block's tuple becomes `cols` and the derived row-identity
index is labeled by exactly those columns; and after the Block's `expr` is
subsequently reassigned, the index is re-derived against the new expression
with the same column tuple, so the `(expr, index_columns, index)` triple is
never stale. -/
theorem block_index_consistency (b : Block) (cols : List String)
    (e2 : BigFramesExpr) (h : cols.length ≤ 1) :
    (b.set_index_columns cols).snd = none
    ∧ (b.set_index_columns cols).fst.index_columns = cols
    ∧ ((b.set_index_columns cols).fst.index).column_names_of = cols
    ∧ (((b.set_index_columns cols).fst.index).expr_of = b.expr)
    ∧ ((b.set_index_columns cols).fst.set_expr e2).snd = none
    ∧ ((b.set_index_columns cols).fst.set_expr e2).fst.expr = e2
    ∧ (((b.set_index_columns cols).fst.set_expr e2).fst.index).expr_of = e2
    ∧ (((b.set_index_columns cols).fst.set_expr e2).fst.index).column_names_of = cols := by
  match cols, h with
  | [], _ => exact ⟨rfl, rfl, rfl, rfl, rfl, rfl, rfl, rfl⟩
  | [c], _ => exact ⟨rfl, rfl, rfl, rfl, rfl, rfl, rfl, rfl⟩

/-- Witness for `block_index_consistency` at `blockA`, `["a"]` and a second
expression over the same table. -/
theorem block_index_consistency_witness :
    (["a"] : List String).length ≤ 1
    ∧ ((blockA.set_index_columns ["a"]).snd = none
      ∧ (blockA.set_index_columns ["a"]).fst.index_columns = ["a"]
      ∧ ((blockA.set_index_columns ["a"]).fst.index).column_names_of = ["a"]
      ∧ (((blockA.set_index_columns ["a"]).fst.index).expr_of = blockA.expr)
      ∧ ((blockA.set_index_columns ["a"]).fst.set_expr (BigFramesExpr.ofTable 1 tableA)).snd = none
      ∧ ((blockA.set_index_columns ["a"]).fst.set_expr (BigFramesExpr.ofTable 1 tableA)).fst.expr
          = BigFramesExpr.ofTable 1 tableA
      ∧ (((blockA.set_index_columns ["a"]).fst.set_expr (BigFramesExpr.ofTable 1 tableA)).fst.index).expr_of
          = BigFramesExpr.ofTable 1 tableA
      ∧ (((blockA.set_index_columns ["a"]).fst.set_expr (BigFramesExpr.ofTable 1 tableA)).fst.index).column_names_of
          = ["a"]) :=
  ⟨by decide,
    block_index_consistency blockA ["a"] (BigFramesExpr.ofTable 1 tableA) (by decide)⟩

/-- C10: `cut` raises `ValueError` when `bins <= 0`, and otherwise raises
`NotImplementedError` whenever `labels` is anything other than `False`
(including the default `None`); in both failure cases the result is the
error, so no window operation is constructed or applied to the series. -/
theorem cut_rejects (x : Nat) (bins : Int) (labels : Option Bool) :
    (bins ≤ 0 →
      cut x bins labels =
        Except.error (CutError.valueError "`bins` should be a positive integer."))
    ∧ (0 < bins → labels ≠ some false →
      cut x bins labels =
        Except.error (CutError.notImplementedError
          "Only labels=False is supported in BigQuery DataFrames so far.")) := by
  constructor
  · intro h
    simp [cut, h]
  · intro h1 h2
    rw [cut, if_neg (by omega), if_pos h2]

/-- Witness for `cut_rejects`: `bins = 0` triggers the `ValueError`, and
`bins = 3` with the default `labels = None` triggers the
`NotImplementedError`. -/
theorem cut_rejects_witness :
    ((0 : Int) ≤ 0
      ∧ cut 0 0 none =
          Except.error (CutError.valueError "`bins` should be a positive integer."))
    ∧ ((0 : Int) < 3 ∧ (none : Option Bool) ≠ some false
      ∧ cut 0 3 none =
          Except.error (CutError.notImplementedError
            "Only labels=False is supported in BigQuery DataFrames so far.")) :=
  ⟨⟨by decide, (cut_rejects 0 0 none).1 (by decide)⟩,
    by decide, by decide, (cut_rejects 0 3 none).2 (by decide) (by decide)⟩

/-- C4 (counterexample): `"a:b.c"` has only two dot-separated parts, yet
`read_gbq` does not fail — it normalizes `:` to `.` first and resolves the
table against the client.  This refutes the claim that every identifier
without exactly three dot-separated parts fails before any table
resolution. -/
theorem read_gbq_colon_resolves :
    ((split_dots "a:b.c").length = 2)
    ∧ read_gbq "a:b.c" = Except.ok ⟨"c", "a.b"⟩ := by
  constructor
  · rfl
  · rfl

/-- C4 (amended): after normalizing colons to dots, every identifier that
does not split into exactly three dot-separated parts makes `read_gbq` fail
with the `ValueError` before any table resolution or query submission
against the remote client. -/
theorem read_gbq_malformed_rejected (s : String)
    (h : (split_dots (replace_colons s)).length ≠ 3) :
    read_gbq s =
      Except.error "read_gbq requires a full table ID, including project and dataset." := by
  unfold read_gbq
  split
  · rename_i p d t heq
    exact absurd (by rw [heq]; rfl) h
  · rfl

/-- Witness for `read_gbq_malformed_rejected` at `"a.b"`. -/
theorem read_gbq_malformed_rejected_witness :
    ((split_dots (replace_colons "a.b")).length ≠ 3)
    ∧ read_gbq "a.b" =
        Except.error "read_gbq requires a full table ID, including project and dataset." :=
  ⟨by decide, read_gbq_malformed_rejected "a.b" (by decide)⟩

/-- C6: with a zero denominator, `floordiv_op` and `mod_op` both produce the
null-propagating zero-typed value `0 * x` instead of the engine's division
error: a null `x` propagates to a null result, and every finite `x` maps to
`0`; no `Except.error` (engine error) escapes. -/
theorem zero_denominator_edge_cases :
    (∀ x : Int, floordiv_op (some x) (some 0) = Except.ok (some 0))
    ∧ floordiv_op none (some 0) = Except.ok none
    ∧ (∀ x : Int, mod_op (some x) (some 0) = Except.ok (some 0))
    ∧ mod_op none (some 0) = Except.ok none := by
  refine ⟨fun x => ?_, rfl, fun x => ?_, rfl⟩ <;>
    simp [floordiv_op, mod_op, opt_mul]

/-- C7: the `numeric_op` guard makes `sum_op` and `mean_op` reject every
non-numeric column with the descriptive `ValueError` (so no aggregate
expression is ever built for it, hence no remote computation is issued),
while numeric columns get the underlying aggregation applied. -/
theorem numeric_only_guard (c : IbisColumn) :
    (c.dtype.is_numeric = false →
      sum_op c =
        Except.error ("Numeric operation cannot be applied to type " ++ c.dtype.render)
      ∧ mean_op c =
        Except.error ("Numeric operation cannot be applied to type " ++ c.dtype.render))
    ∧ (c.dtype.is_numeric = true →
      sum_op c = Except.ok (AggExpr.sum c)
      ∧ mean_op c = Except.ok (AggExpr.mean c)) := by
  constructor <;> intro h <;>
    exact ⟨by simp [sum_op, numeric_op, h], by simp [mean_op, numeric_op, h]⟩

/-- Witness for `numeric_only_guard`: a boolean column is rejected by both
aggregations, an int64 column is aggregated. -/
theorem numeric_only_guard_witness :
    ((IbisColumn.mk "c" IbisDType.boolean).dtype.is_numeric = false
      ∧ sum_op ⟨"c", IbisDType.boolean⟩ =
          Except.error "Numeric operation cannot be applied to type boolean"
      ∧ mean_op ⟨"c", IbisDType.boolean⟩ =
          Except.error "Numeric operation cannot be applied to type boolean")
    ∧ ((IbisColumn.mk "n" IbisDType.int64).dtype.is_numeric = true
      ∧ sum_op ⟨"n", IbisDType.int64⟩ = Except.ok (AggExpr.sum ⟨"n", IbisDType.int64⟩)
      ∧ mean_op ⟨"n", IbisDType.int64⟩ = Except.ok (AggExpr.mean ⟨"n", IbisDType.int64⟩)) :=
  ⟨⟨rfl, (numeric_only_guard ⟨"c", IbisDType.boolean⟩).1 rfl⟩,
    ⟨rfl, (numeric_only_guard ⟨"n", IbisDType.int64⟩).2 rfl⟩⟩

/-- C2: `projection` builds a new expression tree over the same session and
base table whose column list is exactly the supplied list (the source tree,
passed by value in this embedding, is untouched: the Python code only
constructs a new object), and for every name bound in `C` (unique names, the
Expression Tree invariant) `get_column` returns exactly the value expression
supplied in `C` — the very list element, not a copy or re-derivation. -/
theorem projection_non_mutating (T : BigFramesExpr) (C : List Value)
    (h : (C.map Value.get_name).Nodup) :
    (T.projection C).table = T.table
    ∧ (T.projection C).session = T.session
    ∧ (T.projection C).columns = C
    ∧ ∀ v ∈ C, (T.projection C).get_column v.get_name = some v :=
  ⟨rfl, rfl, rfl, fun _ hv => column_names_lookup_mem h hv⟩

/-- Witness for `projection_non_mutating` at `exprA` and two fresh
expression objects. -/
theorem projection_non_mutating_witness :
    (([Value.node "x" 5, Value.node "y" 7].map Value.get_name).Nodup)
    ∧ ((exprA.projection [Value.node "x" 5, Value.node "y" 7]).table = exprA.table
      ∧ (exprA.projection [Value.node "x" 5, Value.node "y" 7]).session = exprA.session
      ∧ (exprA.projection [Value.node "x" 5, Value.node "y" 7]).columns
          = [Value.node "x" 5, Value.node "y" 7]
      ∧ ∀ v ∈ [Value.node "x" 5, Value.node "y" 7],
          (exprA.projection [Value.node "x" 5, Value.node "y" 7]).get_column v.get_name
            = some v) :=
  ⟨by decide,
    projection_non_mutating exprA [Value.node "x" 5, Value.node "y" 7] (by decide)⟩

/-- C5: over an entirely-empty or entirely-null column, `all_op` yields
`true` and `any_op` yields `false` (the pandas identity values, supplied by
the `fillna` over the engine's null aggregate); over non-null input the
reduction is by truthiness (`value != 0`). -/
theorem bool_reduction_identities :
    (∀ col : List (Option Int), (∀ v ∈ col, v = none) →
      all_op col = true ∧ any_op col = false)
    ∧ (∀ vs : List Int,
      all_op (vs.map some) = vs.all (fun v => decide (v ≠ 0))
      ∧ any_op (vs.map some) = vs.any (fun v => decide (v ≠ 0))) := by
  constructor
  · intro col hcol
    have hmap : ∀ w ∈ col.map (Option.map fun v => decide (v ≠ 0)), w = none := by
      intro w hw
      rcases List.mem_map.mp hw with ⟨v, hv, rfl⟩
      rw [hcol v hv]
      rfl
    have hfm := filterMap_id_of_all_none hmap
    constructor
    · unfold all_op
      rw [logical_and_eq_ite, if_pos hfm]
      rfl
    · unfold any_op
      rw [logical_or_eq_ite, if_pos hfm]
      rfl
  · intro vs
    have hfm : ((vs.map some).map (Option.map fun v => decide (v ≠ 0))).filterMap id
        = vs.map (fun v => decide (v ≠ 0)) := by
      simp [List.map_map, List.filterMap_map]
    constructor
    · unfold all_op
      rw [logical_and_eq_ite, hfm]
      by_cases hv : vs.map (fun v => decide (v ≠ 0)) = []
      · rw [if_pos hv]
        rw [List.map_eq_nil_iff] at hv
        subst hv
        rfl
      · rw [if_neg hv]
        rw [Option.getD_some, all_map_id]
    · unfold any_op
      rw [logical_or_eq_ite, hfm]
      by_cases hv : vs.map (fun v => decide (v ≠ 0)) = []
      · rw [if_pos hv]
        rw [List.map_eq_nil_iff] at hv
        subst hv
        rfl
      · rw [if_neg hv]
        rw [Option.getD_some, any_map_id]

/-- Witness for `bool_reduction_identities` at the fully-null column
`[none]`. -/
theorem bool_reduction_identities_witness :
    (∀ v ∈ ([none] : List (Option Int)), v = none)
    ∧ (all_op [none] = true ∧ any_op [none] = false) :=
  ⟨by decide, bool_reduction_identities.1 [none] (by decide)⟩

/-- C9: on labels that are already unique, space-free, non-null strings,
`get_standardized_ids` is the identity: it returns the same column-name and
index-name lists unchanged. -/
theorem get_standardized_ids_idempotent (cols idxs : List String)
    (hnd : (idxs ++ cols).Nodup)
    (hsp : ∀ s ∈ idxs ++ cols, ∀ c ∈ s.data, c ≠ ' ') :
    get_standardized_ids (cols.map some) (idxs.map some) = (cols, idxs) := by
  simp only [get_standardized_ids]
  have h1 : (idxs.map some).map (fun l => l.getD UNNAMED_INDEX_ID) = idxs := by
    simp [List.map_map, Function.comp_def]
  have h2 : (cols.map some).map (fun l => l.getD UNNAMED_COLUMN_ID) = cols := by
    simp [List.map_map, Function.comp_def]
  rw [h1, h2]
  have h3 : (idxs ++ cols).map replace_spaces = idxs ++ cols :=
    calc (idxs ++ cols).map replace_spaces
        = (idxs ++ cols).map id :=
          List.map_congr_left fun s hs => replace_spaces_eq_self (hsp s hs)
      _ = idxs ++ cols := List.map_id _
  rw [h3, dedup_names_of_nodup hnd, List.drop_left, List.take_left]

/-- Witness for `get_standardized_ids_idempotent` at columns `["a", "b"]`
and index `["i"]`. -/
theorem get_standardized_ids_idempotent_witness :
    ((["i"] ++ ["a", "b"] : List String).Nodup
      ∧ ∀ s ∈ (["i"] ++ ["a", "b"] : List String), ∀ c ∈ s.data, c ≠ ' ')
    ∧ get_standardized_ids [some "a", some "b"] [some "i"] = (["a", "b"], ["i"]) :=
  ⟨⟨by decide, by decide⟩,
    get_standardized_ids_idempotent ["a", "b"] ["i"] (by decide) (by decide)⟩

theorem mod_op_some_some (x y : Int) (hy : y ≠ 0) :
    mod_op (some x) (some y) =
      Except.ok (some (
        if y < 0 ∧ 0 < Int.tmod x y then y + Int.tmod x y
        else if 0 < y ∧ Int.tmod x y < 0 then y + Int.tmod x y
        else Int.tmod x y)) := by
  simp only [mod_op, bq_mod, if_neg hy, Except.map]
  split <;> first | rfl | (split <;> rfl)

/-- C3: for a nonzero denominator, `mod_op` yields a remainder that follows
the divisor's sign convention (pandas): the result `r` is congruent to `x`
modulo `y` and lies in `[0, y)` for positive `y` and in `(y, 0]` for
negative `y` — obtained by adding the divisor to the engine's dividend-sign
native remainder exactly when their signs disagree; in particular
`mod(7, -2)` yields `-1`. -/
theorem mod_op_divisor_sign :
    (∀ x y : Int, y ≠ 0 → ∃ r : Int,
      mod_op (some x) (some y) = Except.ok (some r)
      ∧ y ∣ (x - r)
      ∧ (0 < y → 0 ≤ r ∧ r < y)
      ∧ (y < 0 → y < r ∧ r ≤ 0))
    ∧ mod_op (some 7) (some (-2)) = Except.ok (some (-1)) := by
  constructor
  · intro x y hy
    have hadd : Int.tmod x y + y * Int.tdiv x y = x := Int.tmod_add_tdiv x y
    have habs : (Int.tmod x y).natAbs < y.natAbs := tmod_natAbs_lt x y hy
    have hdvd0 : y ∣ (x - Int.tmod x y) :=
      ⟨Int.tdiv x y, by linarith⟩
    have hdvd1 : y ∣ (x - (y + Int.tmod x y)) :=
      ⟨Int.tdiv x y - 1, by rw [mul_sub, mul_one]; linarith⟩
    by_cases h1 : y < 0 ∧ 0 < Int.tmod x y
    · refine ⟨y + Int.tmod x y, ?_, hdvd1, ?_, ?_⟩
      · rw [mod_op_some_some x y hy, if_pos h1]
      · intro hpos; omega
      · intro hneg; omega
    · by_cases h2 : 0 < y ∧ Int.tmod x y < 0
      · refine ⟨y + Int.tmod x y, ?_, hdvd1, ?_, ?_⟩
        · rw [mod_op_some_some x y hy, if_neg h1, if_pos h2]
        · intro hpos; omega
        · intro hneg; omega
      · refine ⟨Int.tmod x y, ?_, hdvd0, ?_, ?_⟩
        · rw [mod_op_some_some x y hy, if_neg h1, if_neg h2]
        · intro hpos; omega
        · intro hneg; omega
  · rfl

/-- Witness for `mod_op_divisor_sign` at `x = 7`, `y = -2`. -/
theorem mod_op_divisor_sign_witness :
    ((-2 : Int) ≠ 0)
    ∧ ∃ r : Int,
      mod_op (some 7) (some (-2)) = Except.ok (some r)
      ∧ (-2 : Int) ∣ (7 - r)
      ∧ ((0 : Int) < -2 → 0 ≤ r ∧ r < -2)
      ∧ ((-2 : Int) < 0 → -2 < r ∧ r ≤ 0) :=
  ⟨by decide, mod_op_divisor_sign.1 7 (-2) (by decide)⟩
